/- Verification of the Moldovan-news crawler (code/crawler_md.py).

The crawler's Python functions are shallowly embedded below:

* Python strings are lists of unicode code points (`Str`); Python `len`
  is `List.length` (both count code points).
* The BeautifulSoup document is a tree of element and text nodes
  (`Node`), a parsed document being a forest (`List Node`).
* Filesystem effects of `save_article_simple` are made explicit: a
  `FS` value records the directories created and the files written,
  and a `writeOk` oracle decides whether a given file write succeeds
  (modelling the `try/except` around `json.dump`).
* Network effects of the two crawl loops are oracles (`SiteEnv`,
  `RedditEnv`) giving, for each request, either a raised transport
  exception or a status code with the decoded payload.  The crawl
  state additionally records a trace of the fetch attempts made, so
  that fetch-count invariants can be stated.
-/
import Mathlib

set_option maxRecDepth 1000000

/-- Python strings, modelled as lists of unicode code points. -/
abbrev Str := List Char

/-- Shorthand turning a Lean string literal into a `Str`. -/
def st (x : String) : Str := x.toList

/-- Python's substring test `pat in s`. -/
def containsSub (pat : Str) : Str → Bool
  | [] => pat.isPrefixOf []
  | c :: r => pat.isPrefixOf (c :: r) || containsSub pat r

/-- Python's `str.lower()` on one character, restricted to the alphabet the
crawler meets: ASCII letters plus the Romanian uppercase diacritics. -/
def pyLower1 (c : Char) : Char :=
  if c = 'Ș' then 'ș' else if c = 'Ț' then 'ț' else if c = 'Ă' then 'ă'
  else if c = 'Â' then 'â' else if c = 'Î' then 'î' else c.toLower

/-- Python's `str.lower()`. -/
def pyLower (s : Str) : Str := s.map pyLower1

/-- Python's `str.strip()`: remove leading and trailing whitespace. -/
def pyStrip (s : Str) : Str :=
  ((s.dropWhile Char.isWhitespace).reverse.dropWhile Char.isWhitespace).reverse

/-- Python's `sep.join(parts)`. -/
def pyJoin (sep : Str) (parts : List Str) : Str := List.intercalate sep parts

/-- A string of `n` copies of `c`, used to build concrete test inputs. -/
def repStr (n : Nat) (c : Char) : Str := List.replicate n c

/-- The fixed lexicon `common_words` of `is_romanian`
(crawler_md.py line 91): each entry is space-surrounded. -/
def common_words : List Str :=
  [" și ", " de ", " nu ", " la ", " care ", " este ", " sunt ",
   " eu ", " tu ", " el ", " pe ", " cu "].map String.toList

/-- `is_romanian` (crawler_md.py lines 89-93): count the lexicon entries
occurring in the lower-cased text, accept at two or more. -/
def is_romanian (text : Str) : Bool :=
  decide (2 ≤ common_words.countP (fun word => containsSub word (pyLower text)))

/-- Python's `url.split('/')`: split on every occurrence of the separator,
keeping empty fields; the split of the empty string is `[""]`. -/
def pySplit (sep : Char) : Str → List Str
  | [] => [[]]
  | c :: r =>
    if c = sep then [] :: pySplit sep r
    else
      match pySplit sep r with
      | [] => [[c]]
      | f :: fs => (c :: f) :: fs

/-- The URL-normalisation step of the link discoverer
(crawler_md.py lines 176-184): a root-relative href is resolved against
`parsed[0]//parsed[2]` of the listing URL split on `/`; an href that is
neither root-relative nor starting with `http` is discarded (`none`
models the Python `continue`). -/
def normalizeHref (url href : Str) : Option Str :=
  if href.head? = some '/' then
    let parsed := pySplit '/' url
    if 3 ≤ parsed.length then
      some (parsed.getD 0 [] ++ ('/' :: '/' :: parsed.getD 2 []) ++ href)
    else none
  else if (st "http").isPrefixOf href then some href else none

lemma pySplit_no_sep {sep : Char} {s : Str} (h : ∀ c ∈ s, c ≠ sep) :
    pySplit sep s = [s] := by
  induction s with
  | nil => rfl
  | cons c r ih =>
    have hc : c ≠ sep := h c (List.mem_cons_self c r)
    have hr : pySplit sep r = [r] := ih fun x hx => h x (List.mem_cons_of_mem c hx)
    simp [pySplit, hc, hr]

lemma pySplit_append {sep : Char} {pre post : Str} (h : ∀ c ∈ pre, c ≠ sep) :
    pySplit sep (pre ++ sep :: post) = pre :: pySplit sep post := by
  induction pre with
  | nil => simp [pySplit]
  | cons c r ih =>
    have hc : c ≠ sep := h c (List.mem_cons_self c r)
    have hr := ih fun x hx => h x (List.mem_cons_of_mem c hx)
    simp [pySplit, hc, hr]

lemma countP_two_le_iff {α : Type} {l : List α} (hl : l.Nodup) (p : α → Bool) :
    2 ≤ l.countP p ↔
      ∃ a b, a ∈ l ∧ b ∈ l ∧ a ≠ b ∧ p a = true ∧ p b = true := by
  rw [List.countP_eq_length_filter]
  constructor
  · intro h
    match hf : l.filter p with
    | [] => rw [hf] at h; simp at h
    | [a] => rw [hf] at h; simp at h
    | a :: b :: rest =>
      have hnd : (l.filter p).Nodup := hl.filter p
      rw [hf] at hnd
      have hab : a ≠ b := by
        intro e
        subst e
        exact (List.nodup_cons.mp hnd).1 (List.mem_cons_self a rest)
      have ha : a ∈ l.filter p := by rw [hf]; exact List.mem_cons_self _ _
      have hb : b ∈ l.filter p := by
        rw [hf]; exact List.mem_cons_of_mem _ (List.mem_cons_self _ _)
      exact ⟨a, b, (List.mem_filter.mp ha).1, (List.mem_filter.mp hb).1, hab,
        (List.mem_filter.mp ha).2, (List.mem_filter.mp hb).2⟩
  · rintro ⟨a, b, ha, hb, hab, hpa, hpb⟩
    have ha' : a ∈ l.filter p := List.mem_filter.mpr ⟨ha, hpa⟩
    have hb' : b ∈ l.filter p := List.mem_filter.mpr ⟨hb, hpb⟩
    match hf : l.filter p with
    | [] => rw [hf] at ha'; simp at ha'
    | [x] =>
      rw [hf] at ha' hb'
      simp at ha' hb'
      exact absurd (ha'.trans hb'.symm) hab
    | x :: y :: rest => simp

/-- C9.  `is_romanian` accepts a text exactly when at least two distinct
lexicon function words occur space-surrounded in the lower-cased text;
in particular it accepts "Eu sunt aici și tu ești acolo" and rejects
"Hello world, how are you". -/
theorem is_romanian_two_distinct_lexicon_words :
    (∀ text : Str, is_romanian text = true ↔
      ∃ w1 w2, w1 ∈ common_words ∧ w2 ∈ common_words ∧ w1 ≠ w2 ∧
        containsSub w1 (pyLower text) = true ∧
        containsSub w2 (pyLower text) = true) ∧
    is_romanian (st "Eu sunt aici și tu ești acolo") = true ∧
    is_romanian (st "Hello world, how are you") = false := by
  refine ⟨fun text => ?_, by decide, by decide⟩
  have hnd : common_words.Nodup := by decide
  rw [is_romanian, decide_eq_true_iff]
  exact countP_two_le_iff hnd _

/-- C8.  A root-relative href found on a listing page is resolved by
combining the listing URL's scheme and host with the href (in particular
"/foo" on "https://site.md/category/x" resolves to "https://site.md/foo"),
and an href that is neither root-relative nor starting with "http" is
discarded. -/
theorem normalizeHref_resolves_root_relative :
    (∀ scheme host rest tail : Str,
      (∀ c ∈ scheme, c ≠ '/') → (∀ c ∈ host, c ≠ '/') →
      (rest = [] ∨ ∃ r, rest = '/' :: r) →
      normalizeHref (scheme ++ '/' :: '/' :: (host ++ rest)) ('/' :: tail) =
        some (scheme ++ ('/' :: '/' :: host) ++ '/' :: tail)) ∧
    normalizeHref (st "https://site.md/category/x") (st "/foo") =
      some (st "https://site.md/foo") ∧
    (∀ url href : Str, href.head? ≠ some '/' →
      (st "http").isPrefixOf href = false → normalizeHref url href = none) := by
  refine ⟨?_, by decide, ?_⟩
  · intro scheme host rest tail hs hh hr
    have h2 : pySplit '/' (scheme ++ '/' :: '/' :: (host ++ rest)) =
        scheme :: [] :: pySplit '/' (host ++ rest) := by
      rw [show scheme ++ '/' :: '/' :: (host ++ rest) =
            scheme ++ '/' :: ('/' :: (host ++ rest)) from rfl,
          pySplit_append hs]
      simp [pySplit]
    have hu : ∃ ts, pySplit '/' (host ++ rest) = host :: ts := by
      rcases hr with h0 | ⟨r, hrr⟩
      · subst h0; exact ⟨[], by simpa using pySplit_no_sep hh⟩
      · subst hrr; exact ⟨pySplit '/' r, pySplit_append hh⟩
    rcases hu with ⟨ts, hts⟩
    rw [hts] at h2
    simp only [normalizeHref, List.head?, h2]
    simp [List.getD]
  · intro url href h1 h2
    simp [normalizeHref, h1, h2]

/-- Concrete instantiation of `normalizeHref_resolves_root_relative`. -/
theorem normalizeHref_resolves_root_relative_witness :
    normalizeHref (st "https:" ++ '/' :: '/' :: (st "a.md" ++ st "/c")) ('/' :: st "z") =
      some (st "https:" ++ ('/' :: '/' :: st "a.md") ++ '/' :: st "z") ∧
    normalizeHref (st "https://a.md/c") (st "mailto:x") = none := by
  constructor
  · exact normalizeHref_resolves_root_relative.1 (st "https:") (st "a.md") (st "/c") (st "z")
      (by decide) (by decide) (Or.inr ⟨st "c", by decide⟩)
  · exact normalizeHref_resolves_root_relative.2.2 _ _ (by decide) (by decide)

/-- A parsed HTML node as BeautifulSoup presents it: an element with a tag
name, the class list of its `class` attribute and its children, or a text
node.  A parsed document is a forest `List Node`. -/
inductive Node where
  | text (s : Str) : Node
  | elem (tag : Str) (classes : List Str) (children : List Node) : Node

/-- The argument list of the boilerplate sweep (crawler_md.py line 55).  It
is passed to BeautifulSoup's `find_all` as a list of tag NAMES, which are
matched against `tag.name` only; the entries `div.comments`, `div.related`
and `div.share` are therefore compared with the name "div" and match no
element. -/
def decompose_names : List Str :=
  ["script", "style", "noscript", "iframe", "header", "footer", "nav",
   "aside", "form", "div.comments", "div.related", "div.share"].map String.toList

mutual
/-- The `tag.decompose()` sweep on one node: an element whose tag name is in
the list is deleted with its whole subtree, otherwise its children are swept. -/
def stripNode (banned : List Str) : Node → List Node
  | .text s => [.text s]
  | .elem t c ch =>
    if banned.contains t then [] else [.elem t c (stripForest banned ch)]
/-- The `tag.decompose()` sweep on a forest. -/
def stripForest (banned : List Str) : List Node → List Node
  | [] => []
  | n :: r => stripNode banned n ++ stripForest banned r
end

mutual
/-- The `.strings` of a node: all descendant text-node contents in document
order. -/
def nodeStrings : Node → List Str
  | .text s => [s]
  | .elem _ _ ch => forestStrings ch
/-- The `.strings` of a forest. -/
def forestStrings : List Node → List Str
  | [] => []
  | n :: r => nodeStrings n ++ forestStrings r
end

/-- BeautifulSoup's `get_text(separator=sep)`: all descendant strings joined
with the separator (`get_text()` is `getText []`). -/
def getText (sep : Str) (n : Node) : Str := pyJoin sep (nodeStrings n)

mutual
/-- `soup.find('div', class_=cls)` on one node: document-order search for the
first `div` carrying the class. -/
def findClassDivNode (cls : Str) : Node → Option Node
  | .text _ => none
  | .elem t c ch =>
    if t == st "div" && c.contains cls then some (.elem t c ch)
    else findClassDivForest cls ch
/-- `soup.find('div', class_=cls)` on a forest. -/
def findClassDivForest (cls : Str) : List Node → Option Node
  | [] => none
  | n :: r =>
    match findClassDivNode cls n with
    | some d => some d
    | none => findClassDivForest cls r
end

mutual
/-- `soup.find(name)` on one node: first element with the tag name, document
order. -/
def findTagNode (name : Str) : Node → Option Node
  | .text _ => none
  | .elem t c ch =>
    if t == name then some (.elem t c ch) else findTagForest name ch
/-- `soup.find(name)` on a forest. -/
def findTagForest (name : Str) : List Node → Option Node
  | [] => none
  | n :: r =>
    match findTagNode name n with
    | some d => some d
    | none => findTagForest name r
end

mutual
/-- `find_all(names)` on one node: every element (the node itself included)
whose tag name is in the list, document order. -/
def findAllNode (names : List Str) : Node → List Node
  | .text _ => []
  | .elem t c ch =>
    (if names.contains t then [Node.elem t c ch] else []) ++ findAllForest names ch
/-- `soup.find_all(names)` on a forest. -/
def findAllForest (names : List Str) : List Node → List Node
  | [] => []
  | n :: r => findAllNode names n ++ findAllForest names r
end

/-- `tag.find_all(name, recursive=False)`: the direct children with the tag
name. -/
def directChildren (name : Str) : Node → List Node
  | .text _ => []
  | .elem _ _ ch =>
    ch.filter fun n => match n with | .elem t _ _ => t == name | .text _ => false

/-- `tag.find_all(name)`: every descendant of the tag (itself excluded) with
the tag name. -/
def descendantTags (name : Str) : Node → List Node
  | .text _ => []
  | .elem _ _ ch => findAllForest [name] ch

/-- The fixed ordered list `common_classes` of phase 1
(crawler_md.py lines 59-63). -/
def common_classes : List Str :=
  [st "entry-content", st "td-post-content", st "post-content", st "news-text",
   st "article-body", st "node-content", st "field-name-body", st "details-content",
   st "text-content", st "news_text", st "article-text", st "full-text", st "art-body"]

/-- Phase 1 of the extractor (crawler_md.py lines 64-68): scan the class
list in order; for the first `div` found with the class, return its joined
stripped text when longer than 150, otherwise move to the next class. -/
def phase1 : List Str → List Node → Option Str
  | [], _ => none
  | cls :: rest, doc =>
    match findClassDivForest cls doc with
    | some d =>
      let text := pyStrip (getText (st "\n") d)
      if 150 < text.length then some text else phase1 rest doc
    | none => phase1 rest doc

/-- The phase-2 density score of one candidate tag (crawler_md.py lines
75-78): summed `get_text()` length of its paragraph children, the direct
children being preferred and all descendant paragraphs used when there is
none. -/
def densityScore (tagNode : Node) : Nat :=
  let paras := directChildren (st "p") tagNode
  let paras := if paras.isEmpty then descendantTags (st "p") tagNode else paras
  (paras.map fun p => (getText [] p).length).sum

/-- The phase-2 maximum scan (crawler_md.py lines 71-82): fold over the
candidates, the running best replaced only on a strictly greater score. -/
def bestDensity (cands : List Node) : Option Node × Nat :=
  cands.foldl
    (fun acc tagNode =>
      if acc.2 < densityScore tagNode then (some tagNode, densityScore tagNode)
      else acc)
    (none, 0)

/-- `extract_content_heuristic` (crawler_md.py lines 51-87) on a parsed
document forest: boilerplate sweep, then phase 1, then the phase-2 density
fallback returning the full stripped text of the densest element when its
score exceeds 150. -/
def extract_content_heuristic (doc : List Node) : Option Str :=
  let doc := stripForest decompose_names doc
  match phase1 common_classes doc with
  | some text => some text
  | none =>
    match bestDensity (findAllForest [st "div", st "article", st "section"] doc) with
    | (some best, maxLen) =>
      if 150 < maxLen then some (pyStrip (getText (st "\n") best)) else none
    | (none, _) => none

/-- The title lookup (crawler_md.py lines 209-210): the first `h1`'s stripped
text, or the placeholder. -/
def titleOf (doc : List Node) : Str :=
  match findTagForest (st "h1") doc with
  | some h1 => pyStrip (getText [] h1)
  | none => st "No Title"

lemma phase1_eq_none {doc : List Node} :
    ∀ {cls : List Str}, (∀ c ∈ cls, findClassDivForest c doc = none) →
      phase1 cls doc = none := by
  intro cls
  induction cls with
  | nil => intro _; rfl
  | cons c rest ih =>
    intro h
    have hc := h c (List.mem_cons_self _ _)
    simp only [phase1, hc]
    exact ih fun x hx => h x (List.mem_cons_of_mem _ hx)

/-- The spec's phase-1 precedence document: a `div.entry-content` holding 200
characters of paragraph text next to a denser unclassed `div` holding 400. -/
def doc3 : List Node :=
  [Node.elem (st "div") [st "entry-content"]
     [Node.elem (st "p") [] [Node.text (repStr 200 'a')]],
   Node.elem (st "div") [] [Node.elem (st "p") [] [Node.text (repStr 400 'b')]]]

/-- A `div.entry-content` holding 200 characters of paragraph text. -/
def cex3entry : Node :=
  Node.elem (st "div") [st "entry-content"]
    [Node.elem (st "p") [] [Node.text (repStr 200 'c')]]

/-- A document whose FIRST `div.entry-content` is short: a 10-character
`div.entry-content`, then `cex3entry` (200 characters), then an unclassed
`div` holding 400 characters of paragraph text. -/
def cex3doc : List Node :=
  [Node.elem (st "div") [st "entry-content"]
     [Node.elem (st "p") [] [Node.text (repStr 10 'a')]],
   cex3entry,
   Node.elem (st "div") [] [Node.elem (st "p") [] [Node.text (repStr 400 'b')]]]

/-- C3, counterexample.  `cex3doc` contains a `div` with the phase-1 class
`entry-content` (namely `cex3entry`) whose extracted text has 200 > 150
characters, yet the extractor does not return that div's text: the first
`entry-content` div is short, phase 1 falls through, and phase 2 returns the
denser unclassed div's 400 characters. -/
theorem extract_second_entry_content_div_bypassed :
    pyStrip (getText (st "\n") cex3entry) = repStr 200 'c' ∧
    150 < (repStr 200 'c').length ∧
    extract_content_heuristic cex3doc = some (repStr 400 'b') ∧
    repStr 400 'b' ≠ repStr 200 'c' := by
  refine ⟨by decide, by decide, by decide, by decide⟩

/-- C3, amended.  Phase 1 takes precedence over the phase-2 density scan for
the div the class scan finds: whenever the FIRST `div` carrying class
`entry-content` (the first class probed) in the swept document has stripped
text longer than 150 characters, the extractor returns exactly that text, no
matter how dense any other element is; on the spec's document `doc3` it
returns the 200-character `entry-content` text, not the 400-character dense
div. -/
theorem extract_phase1_scan_precedes_density :
    (∀ (doc : List Node) (d : Node),
      findClassDivForest (st "entry-content") (stripForest decompose_names doc) =
        some d →
      150 < (pyStrip (getText (st "\n") d)).length →
      extract_content_heuristic doc = some (pyStrip (getText (st "\n") d))) ∧
    extract_content_heuristic doc3 = some (repStr 200 'a') := by
  constructor
  · intro doc d hfind hlen
    simp only [extract_content_heuristic, common_classes, phase1, hfind, hlen,
      if_pos]
  · decide

/-- Concrete instantiation of `extract_phase1_scan_precedes_density`. -/
theorem extract_phase1_scan_precedes_density_witness :
    extract_content_heuristic doc3 =
      some (pyStrip (getText (st "\n")
        (Node.elem (st "div") [st "entry-content"]
          [Node.elem (st "p") [] [Node.text (repStr 200 'a')]]))) :=
  extract_phase1_scan_precedes_density.1 doc3 _ (by rfl) (by decide)

/-- The C4 failing input: a `script` element and a `div` of class `comments`
holding 200 characters of paragraph text. -/
def cex4doc : List Node :=
  [Node.elem (st "script") [] [Node.text (st "SCRIPTJUNK")],
   Node.elem (st "div") [st "comments"]
     [Node.elem (st "p") [] [Node.text (repStr 200 'k')]]]

/-- C4.  The boilerplate sweep does delete the nine listed tag names
(here: the `script` element and its text), but the `div.comments` /
`div.related` / `div.share` entries are matched as tag NAMES by
BeautifulSoup and delete nothing, so the text of a `div` with class
`comments` survives the sweep and is returned by the extractor — contrary
to the claim that such text never appears in the returned content. -/
theorem extract_comment_div_text_survives :
    stripForest decompose_names
        [Node.elem (st "script") [] [Node.text (st "SCRIPTJUNK")]] = [] ∧
    stripForest decompose_names cex4doc =
      [Node.elem (st "div") [st "comments"]
        [Node.elem (st "p") [] [Node.text (repStr 200 'k')]]] ∧
    extract_content_heuristic cex4doc = some (repStr 200 'k') := by
  refine ⟨rfl, rfl, by decide⟩

/-- The C5 counterexample element: an unclassed `div` whose paragraph child
holds 200 characters but which also holds a non-paragraph "EXTRA" span. -/
def cex5div : Node :=
  Node.elem (st "div") []
    [Node.elem (st "p") [] [Node.text (repStr 200 'a')],
     Node.elem (st "span") [] [Node.text (st "EXTRA")]]

/-- The C5 counterexample document. -/
def cex5doc : List Node := [cex5div]

/-- C5, counterexample.  On `cex5doc` the phase-2 maximum is `cex5div` with
score 200 > 150, and the joined paragraph text of that element is the 200
'a's alone; but the extractor returns the element's FULL text — the span's
"EXTRA" included — so it does not return only the joined paragraph text. -/
theorem extract_phase2_not_paragraph_text_only :
    bestDensity (findAllForest [st "div", st "article", st "section"]
      (stripForest decompose_names cex5doc)) = (some cex5div, 200) ∧
    pyJoin (st "\n") ((directChildren (st "p") cex5div).map (getText [])) =
      repStr 200 'a' ∧
    extract_content_heuristic cex5doc = some (repStr 200 'a' ++ '\n' :: st "EXTRA") ∧
    repStr 200 'a' ++ '\n' :: st "EXTRA" ≠ repStr 200 'a' := by
  refine ⟨rfl, by decide, by decide, by decide⟩

/-- The spec's phase-2 document: one `article` holding 300 characters across
two nested paragraphs and no recognised class anywhere. -/
def doc5article : Node :=
  Node.elem (st "article") []
    [Node.elem (st "div") [] [Node.elem (st "p") [] [Node.text (repStr 150 'x')]],
     Node.elem (st "div") [] [Node.elem (st "p") [] [Node.text (repStr 150 'y')]]]

/-- The spec's phase-2 document as a forest. -/
def doc5 : List Node := [doc5article]

/-- C5, amended.  With no phase-1 class match, the extractor scores each
`div`/`article`/`section` by the summed character length of its paragraph
children (direct children preferred, else all descendant paragraphs), and
when the maximum score exceeds 150 it returns the FULL stripped text of the
maximal element (every descendant string joined with newline separators),
not only its paragraph text; on `doc5` — whose maximal element is the
`article` with score 300 — it returns the article's 300 characters. -/
theorem extract_phase2_max_density_full_text :
    (∀ (doc : List Node) (best : Node) (maxLen : Nat),
      (∀ c ∈ common_classes,
        findClassDivForest c (stripForest decompose_names doc) = none) →
      bestDensity (findAllForest [st "div", st "article", st "section"]
        (stripForest decompose_names doc)) = (some best, maxLen) →
      150 < maxLen →
      extract_content_heuristic doc = some (pyStrip (getText (st "\n") best))) ∧
    extract_content_heuristic doc5 = some (repStr 150 'x' ++ '\n' :: repStr 150 'y') := by
  constructor
  · intro doc best maxLen hnone hbd hlen
    simp only [extract_content_heuristic, phase1_eq_none hnone, hbd, hlen, if_pos]
  · decide

/-- Concrete instantiation of `extract_phase2_max_density_full_text`. -/
theorem extract_phase2_max_density_full_text_witness :
    extract_content_heuristic doc5 = some (pyStrip (getText (st "\n") doc5article)) :=
  extract_phase2_max_density_full_text.1 doc5 doc5article 300
    (by intro c hc; fin_cases hc <;> rfl) (by rfl) (by decide)

/-- One stored record: the `data_entry` dictionary of `save_article_simple`
(crawler_md.py lines 34-41), flattened. -/
structure Entry where
  title : Str
  content : Str
  id : Nat
  source_url : Str
deriving DecidableEq

/-- The filesystem as the crawler touches it: the directories made and the
files written, in order. -/
structure FS where
  dirs : List Str
  files : List (Str × Entry)
deriving DecidableEq

/-- The filesystem before a run. -/
def emptyFS : FS := ⟨[], []⟩

/-- Python's `str(n)` for a natural index. -/
def natStr (n : Nat) : Str := (toString n).toList

/-- The per-site directory `BASE_OUTPUT_DIR / site_name`. -/
def siteDir (site_name : Str) : Str := st "data_cleaned/md_crawl_data/" ++ site_name

/-- The path of the file `save_article_simple` writes for a site and index. -/
def savePath (site_name : Str) (index : Nat) : Str :=
  siteDir site_name ++ st "/" ++ site_name ++ st "_" ++ natStr index ++ st ".json"

/-- `save_article_simple` (crawler_md.py lines 23-49).  `content = none`
models Python `None`; the `writeOk` oracle tells whether the `json.dump`
to a path succeeds (its `except` branch prints and returns `False`).
Returns the Python return value together with the filesystem after the
call. -/
def save_article_simple (writeOk : Str → Bool) (fs : FS) (site_name : Str)
    (index : Nat) (url title : Str) (content : Option Str) : Bool × FS :=
  match content with
  | none => (false, fs)
  | some c =>
    if c.isEmpty || c.length < 150 then (false, fs)
    else
      let dirs := if fs.dirs.contains (siteDir site_name) then fs.dirs
                  else fs.dirs ++ [siteDir site_name]
      let path := savePath site_name index
      if writeOk path then
        (true, ⟨dirs, fs.files ++ [(path, ⟨title, c, index, url⟩)]⟩)
      else
        (false, ⟨dirs, fs.files⟩)

/-- C1.  For every site name, index, url, title and content: when the content
is absent, empty or shorter than 150 characters the store returns `false`
and leaves the filesystem untouched (no directory made, no file written);
otherwise it creates the site directory, writes the record and returns
`true`, and a write failure is caught and reported as `false` (no file
recorded) rather than raised. -/
theorem save_article_simple_policy :
    ∀ (writeOk : Str → Bool) (fs : FS) (site_name : Str) (index : Nat)
      (url title : Str) (content : Option Str),
      ((content = none ∨ content = some [] ∨
          (∃ c, content = some c ∧ c.length < 150)) →
        save_article_simple writeOk fs site_name index url title content =
          (false, fs)) ∧
      (∀ c, content = some c → 150 ≤ c.length →
        (writeOk (savePath site_name index) = true →
          save_article_simple writeOk fs site_name index url title content =
            (true, ⟨(if fs.dirs.contains (siteDir site_name) then fs.dirs
                     else fs.dirs ++ [siteDir site_name]),
                    fs.files ++ [(savePath site_name index,
                                  ⟨title, c, index, url⟩)]⟩)) ∧
        (writeOk (savePath site_name index) = false →
          (save_article_simple writeOk fs site_name index url title content).1 =
            false ∧
          (save_article_simple writeOk fs site_name index url title
            content).2.files = fs.files)) := by
  intro writeOk fs site_name index url title content
  constructor
  · rintro (h | h | ⟨c, hc, hlen⟩)
    · subst h; rfl
    · subst h; rfl
    · subst hc; simp [save_article_simple, hlen]
  · intro c hc hlen
    subst hc
    have hne : c.isEmpty = false := by
      cases c with
      | nil => simp at hlen
      | cons a r => rfl
    have hnl : ¬ c.length < 150 := by omega
    constructor
    · intro hw; simp [save_article_simple, hne, hnl, hw]
    · intro hw; simp [save_article_simple, hne, hnl, hw]

/-- Concrete instantiation of `save_article_simple_policy`: a 149-character
content is rejected with no filesystem change, a 150-character content is
written and acknowledged, and a failing write is reported as `false` with
no file recorded. -/
theorem save_article_simple_policy_witness :
    save_article_simple (fun _ => true) emptyFS (st "s") 1 (st "u") (st "t")
      (some (repStr 149 'z')) = (false, emptyFS) ∧
    save_article_simple (fun _ => true) emptyFS (st "s") 1 (st "u") (st "t")
      (some (repStr 150 'z')) =
      (true, ⟨[siteDir (st "s")],
              [(savePath (st "s") 1, ⟨st "t", repStr 150 'z', 1, st "u"⟩)]⟩) ∧
    (save_article_simple (fun _ => false) emptyFS (st "s") 1 (st "u") (st "t")
      (some (repStr 150 'z'))).1 = false ∧
    (save_article_simple (fun _ => false) emptyFS (st "s") 1 (st "u") (st "t")
      (some (repStr 150 'z'))).2.files = [] := by
  refine ⟨?_, ?_, ?_, ?_⟩
  · exact (save_article_simple_policy (fun _ => true) emptyFS (st "s") 1 (st "u")
      (st "t") (some (repStr 149 'z'))).1 (Or.inr (Or.inr ⟨_, rfl, by decide⟩))
  · have h := ((save_article_simple_policy (fun _ => true) emptyFS (st "s") 1
      (st "u") (st "t") (some (repStr 150 'z'))).2 _ rfl (by decide)).1 rfl
    simpa [emptyFS] using h
  · exact (((save_article_simple_policy (fun _ => false) emptyFS (st "s") 1
      (st "u") (st "t") (some (repStr 150 'z'))).2 _ rfl (by decide)).2 rfl).1
  · exact (((save_article_simple_policy (fun _ => false) emptyFS (st "s") 1
      (st "u") (st "t") (some (repStr 150 'z'))).2 _ rfl (by decide)).2 rfl).2

/-- The outcome of one listing-page request in `crawl_site_pages`: a raised
exception (transport error or parse failure, both caught by the per-page
`except` of line 220), or a status code together with the candidate hrefs
that the link loop of lines 173-191 yields for the page (anchor extraction,
URL normalisation, regex inclusion and junk exclusion applied), in document
order and before the `list(set(...))` deduplication of line 193. -/
inductive ListingOutcome where
  | raised
  | response (status : Nat) (links : List Str)

/-- The outcome of one article request: a raised exception (caught by the
per-candidate `except: pass` of line 218) or a status code with the parsed
article document. -/
inductive ArticleOutcome where
  | raised
  | response (status : Nat) (doc : List Node)

/-- The network as one `crawl_site_pages` run sees it, together with the
write oracle of the store. -/
structure SiteEnv where
  listing : Nat → ListingOutcome
  article : Str → ArticleOutcome
  writeOk : Str → Bool

/-- The run state of `crawl_site_pages` (lines 147-148: `visited_urls`,
`global_index`), extended with the filesystem and with trace fields
recording every listing-page and article fetch attempt (each
`requests.get` reached), in order. -/
structure CrawlState where
  visited_urls : List Str
  global_index : Nat
  fs : FS
  articleFetches : List Str
  listingFetches : List Nat

/-- The state at the top of `crawl_site_pages`. -/
def initialCrawlState : CrawlState := ⟨[], 1, emptyFS, [], []⟩

/-- Lines 201-217: everything after `requests.get(link)` — title lookup,
extraction and save — which only touches the store and the index. -/
def articleStep (env : SiteEnv) (site_name : Str) (fs : FS) (global_index : Nat)
    (link : Str) : FS × Nat :=
  match env.article link with
  | .raised => (fs, global_index)
  | .response status doc =>
    if status = 200 then
      match extract_content_heuristic doc with
      | some content =>
        let r := save_article_simple env.writeOk fs site_name global_index link
                   (titleOf doc) (some content)
        if r.1 then (r.2, global_index + 1) else (r.2, global_index)
      | none => (fs, global_index)
    else (fs, global_index)

/-- The body of `for link in candidates` (lines 196-219): a link already in
`visited_urls` is skipped outright; otherwise it is added to the set and
its article is fetched. -/
def processLink (env : SiteEnv) (site_name : Str) (s : CrawlState) (link : Str) :
    CrawlState :=
  if link ∈ s.visited_urls then s
  else
    let r := articleStep env site_name s.fs s.global_index link
    { s with visited_urls := s.visited_urls ++ [link],
             articleFetches := s.articleFetches ++ [link],
             fs := r.1, global_index := r.2 }

/-- The body of the page loop (lines 150-221): the listing fetch is always
attempted; on a 200 response the deduplicated candidates are processed; a
non-200 status or a raised exception just moves to the next page. -/
def processPage (env : SiteEnv) (site_name : Str) (s : CrawlState) (page : Nat) :
    CrawlState :=
  let s := { s with listingFetches := s.listingFetches ++ [page] }
  match env.listing page with
  | .raised => s
  | .response status links =>
    if status = 200 then (links.dedup).foldl (processLink env site_name) s
    else s

/-- `crawl_site_pages` (crawler_md.py lines 145-221): the page loop
`for page in range(1, max_pages + 1)`, which has no early exit. -/
def crawl_site_pages (env : SiteEnv) (site_name : Str) (max_pages : Nat) :
    CrawlState :=
  (List.range' 1 max_pages).foldl (processPage env site_name) initialCrawlState

/-- The fetch-count invariant: no article URL is fetched twice, and every
fetched URL is in the visited-set. -/
def FetchInv (s : CrawlState) : Prop :=
  s.articleFetches.Nodup ∧ ∀ l ∈ s.articleFetches, l ∈ s.visited_urls

lemma fetchInv_processLink (env : SiteEnv) (site : Str) {s : CrawlState}
    (h : FetchInv s) (link : Str) : FetchInv (processLink env site s link) := by
  unfold processLink
  by_cases hv : link ∈ s.visited_urls
  · simpa [hv] using h
  · have hnf : link ∉ s.articleFetches := fun hf => hv (h.2 link hf)
    simp only [hv, if_false]
    constructor
    · exact h.1.append (List.nodup_singleton _) (List.disjoint_singleton.2 hnf)
    · intro l hl
      rcases List.mem_append.1 hl with hl | hl
      · exact List.mem_append_left _ (h.2 l hl)
      · exact List.mem_append_right _ hl

lemma fetchInv_foldl_links (env : SiteEnv) (site : Str) :
    ∀ (links : List Str) {s : CrawlState}, FetchInv s →
      FetchInv (links.foldl (processLink env site) s) := by
  intro links
  induction links with
  | nil => intro s h; exact h
  | cons l r ih => intro s h; exact ih (fetchInv_processLink env site h l)

lemma fetchInv_processPage (env : SiteEnv) (site : Str) {s : CrawlState}
    (h : FetchInv s) (page : Nat) : FetchInv (processPage env site s page) := by
  unfold processPage
  have h' : FetchInv { s with listingFetches := s.listingFetches ++ [page] } := h
  cases env.listing page with
  | raised => exact h'
  | response status links =>
    by_cases hs : status = 200
    · simpa [hs] using fetchInv_foldl_links env site links.dedup h'
    · simpa [hs] using h'

lemma fetchInv_crawl (env : SiteEnv) (site : Str) (max_pages : Nat) :
    FetchInv (crawl_site_pages env site max_pages) := by
  unfold crawl_site_pages
  have : ∀ (ps : List Nat) (s : CrawlState), FetchInv s →
      FetchInv (ps.foldl (processPage env site) s) := by
    intro ps
    induction ps with
    | nil => intro s h; exact h
    | cons p r ih => intro s h; exact ih _ (fetchInv_processPage env site h p)
  exact this _ _ ⟨List.nodup_nil, fun l hl => absurd hl (List.not_mem_nil l)⟩

lemma listingFetches_processLink (env : SiteEnv) (site : Str) (s : CrawlState)
    (link : Str) : (processLink env site s link).listingFetches = s.listingFetches := by
  unfold processLink
  by_cases hv : link ∈ s.visited_urls <;> simp [hv]

lemma listingFetches_foldl_links (env : SiteEnv) (site : Str) :
    ∀ (links : List Str) (s : CrawlState),
      (links.foldl (processLink env site) s).listingFetches = s.listingFetches := by
  intro links
  induction links with
  | nil => intro s; rfl
  | cons l r ih => intro s; rw [List.foldl_cons, ih, listingFetches_processLink]

lemma listingFetches_processPage (env : SiteEnv) (site : Str) (s : CrawlState)
    (page : Nat) :
    (processPage env site s page).listingFetches = s.listingFetches ++ [page] := by
  unfold processPage
  cases env.listing page with
  | raised => rfl
  | response status links =>
    by_cases hs : status = 200
    · simp [hs, listingFetches_foldl_links]
    · simp [hs]

lemma listingFetches_crawl (env : SiteEnv) (site : Str) (max_pages : Nat) :
    (crawl_site_pages env site max_pages).listingFetches =
      List.range' 1 max_pages := by
  unfold crawl_site_pages
  have : ∀ (ps : List Nat) (s : CrawlState),
      (ps.foldl (processPage env site) s).listingFetches =
        s.listingFetches ++ ps := by
    intro ps
    induction ps with
    | nil => intro s; simp
    | cons p r ih => intro s; rw [List.foldl_cons, ih, listingFetches_processPage]; simp
  simpa [initialCrawlState] using this (List.range' 1 max_pages) initialCrawlState

/-- One Reddit post as the crawler reads it from the listing JSON. -/
structure RedditPost where
  title : Str
  selftext : Str
  permalink : Str

/-- One decoded Reddit listing response: the `children` posts and the
continuation token `after` (`none` models an absent or falsy token). -/
structure RedditData where
  posts : List RedditPost
  after : Option Str

/-- The outcome of one Reddit listing request: a raised exception (transport
or JSON-decode failure, both caught by the `except` of line 139) or a status
code with the decoded data. -/
inductive RedditOutcome where
  | raised
  | response (status : Nat) (data : RedditData)

/-- The Reddit API as one run sees it: the response is a function of the
`after` token carried in the request URL (`none` on the first request),
together with the write oracle of the store. -/
structure RedditEnv where
  fetch : Option Str → RedditOutcome
  writeOk : Str → Bool

/-- The run state of `crawl_reddit_moldova` (lines 99-100), with traces of
the page requests issued (by their `after` token). -/
structure RedditState where
  after : Option Str
  saved_count : Nat
  fs : FS
  pageFetches : List (Option Str)

/-- The body of the post loop (crawler_md.py lines 121-133).  Note that
`saved_count` is incremented BEFORE the save result is known, and the
result of `save_article_simple` only controls the log line. -/
def processPost (env : RedditEnv) (s : RedditState) (post : RedditPost) :
    RedditState :=
  let full_text := post.title ++ st "\n\n" ++ post.selftext
  if decide (50 < post.selftext.length) && is_romanian full_text then
    let saved_count := s.saved_count + 1
    let r := save_article_simple env.writeOk s.fs (st "reddit_moldova")
               saved_count (st "https://reddit.com" ++ post.permalink)
               post.title (some post.selftext)
    { s with saved_count := saved_count, fs := r.2 }
  else s

/-- The page loop of `crawl_reddit_moldova` (lines 103-141), the fuel being
the remaining iterations of `for _ in range(pages_to_fetch)`.  A raised
exception, a non-200 status, an empty post list or a missing continuation
token all break the loop. -/
def redditPages (env : RedditEnv) : Nat → RedditState → RedditState
  | 0, s => s
  | n + 1, s =>
    let s := { s with pageFetches := s.pageFetches ++ [s.after] }
    match env.fetch s.after with
    | .raised => s
    | .response status data =>
      if status = 200 then
        let s := { s with after := data.after }
        if data.posts.isEmpty then s
        else
          let s := data.posts.foldl (processPost env) s
          match data.after with
          | none => s
          | some _ => redditPages env n s
      else s

/-- `crawl_reddit_moldova` (crawler_md.py lines 95-143):
`pages_to_fetch = int(limit / 100) + 1`. -/
def crawl_reddit_moldova (env : RedditEnv) (limit : Nat) : RedditState :=
  redditPages env (limit / 100 + 1) ⟨none, 0, emptyFS, []⟩

/-- 15 candidate links for listing page 1 of the C2 scenario. -/
def links15 : List Str := (List.range 15).map fun i => st "https://e.md/u" ++ natStr i

/-- 10 candidate links for listing page 2 of the C2 scenario; `u12`, `u13`
and `u14` overlap page 1. -/
def links10 : List Str :=
  (List.range 10).map fun i => st "https://e.md/u" ++ natStr (i + 12)

/-- The C2 scenario: two listing pages yielding 15 and 10 qualifying links
with 3 overlapping; every article fetch raises (an attempt all the same). -/
def envC2 : SiteEnv :=
  ⟨fun p => if p = 1 then .response 200 links15
    else if p = 2 then .response 200 links10 else .raised,
   fun _ => .raised, fun _ => true⟩

/-- C2.  In one `crawl_site_pages` run no URL is ever fetched twice (the
attempt trace has no duplicate), and on the 2-page scenario of 15 and 10
qualifying links with 3 overlapping, exactly 22 article fetch attempts are
performed. -/
theorem crawl_unique_fetch_count :
    (∀ (env : SiteEnv) (site : Str) (max_pages : Nat),
      (crawl_site_pages env site max_pages).articleFetches.Nodup) ∧
    links15.length = 15 ∧ links10.length = 10 ∧
    (links10.filter fun l => links15.contains l).length = 3 ∧
    (crawl_site_pages envC2 (st "site") 2).articleFetches.length = 22 := by
  exact ⟨fun env site mp => (fetchInv_crawl env site mp).1,
    by decide, by decide, by decide, by decide⟩

/-- The C10 scenario: the same single candidate URL is discovered on both
listing pages, and its article fetch raises. -/
def envC10 : SiteEnv :=
  ⟨fun _ => .response 200 [st "https://e.md/x"], fun _ => .raised, fun _ => true⟩

lemma count_le_one_of_nodup {l : List Str} (h : l.Nodup) (a : Str) :
    l.count a ≤ 1 := by
  induction l with
  | nil => simp
  | cons x r ih =>
    rw [List.count_cons]
    rcases List.nodup_cons.mp h with ⟨hx, hr⟩
    by_cases he : x == a
    · have hxa : x = a := by simpa using he
      subst hxa
      have h0 : r.count x = 0 := List.count_eq_zero.mpr hx
      simp [h0, he]
    · simp [he, ih hr]

/-- C10.  A candidate URL is added to `visited_urls` before its article
fetch is attempted, so any candidate — even one whose fetch, extraction or
save failed, with nothing stored — is fetched at most once per run and is
never retried when rediscovered on a later listing page: in the scenario
`envC10` the URL appears on both pages, its only fetch raises, no article
is stored, and no second attempt happens. -/
theorem crawl_failed_candidate_never_retried :
    (∀ (env : SiteEnv) (site : Str) (max_pages : Nat) (link : Str),
      (crawl_site_pages env site max_pages).articleFetches.count link ≤ 1 ∧
      (link ∈ (crawl_site_pages env site max_pages).articleFetches →
        link ∈ (crawl_site_pages env site max_pages).visited_urls)) ∧
    (crawl_site_pages envC10 (st "site") 2).articleFetches = [st "https://e.md/x"] ∧
    (crawl_site_pages envC10 (st "site") 2).fs.files = [] ∧
    (crawl_site_pages envC10 (st "site") 2).visited_urls = [st "https://e.md/x"] := by
  refine ⟨fun env site mp link =>
    ⟨count_le_one_of_nodup (fetchInv_crawl env site mp).1 link,
     fun h => (fetchInv_crawl env site mp).2 link h⟩,
    by decide, by decide, by decide⟩

/-- Concrete instantiation of `crawl_failed_candidate_never_retried`. -/
theorem crawl_failed_candidate_never_retried_witness :
    (crawl_site_pages envC10 (st "site") 2).articleFetches.count
      (st "https://e.md/x") ≤ 1 :=
  (crawl_failed_candidate_never_retried.1 envC10 (st "site") 2
    (st "https://e.md/x")).1

/-- The C7 counterexample scenario: listing page 1 yields zero candidates,
listing page 2 yields one. -/
def envZ : SiteEnv :=
  ⟨fun p => if p = 1 then .response 200 []
    else .response 200 [st "https://e.md/y"],
   fun _ => .raised, fun _ => true⟩

/-- C7, counterexample.  In `crawl_site_pages` a listing page yielding zero
candidate URLs does NOT stop the pagination: with `max_pages = 2` and page 1
yielding zero candidates, listing page 2 is still fetched (and its article
attempted), contradicting the claimed early stop. -/
theorem crawl_empty_page_does_not_stop_pagination :
    envZ.listing 1 = .response 200 [] ∧
    (crawl_site_pages envZ (st "site") 2).listingFetches = [1, 2] ∧
    (crawl_site_pages envZ (st "site") 2).articleFetches = [st "https://e.md/y"] := by
  refine ⟨rfl, by decide, by decide⟩

/-- The Reddit early-stop scenario: the first page returns zero posts (with
a continuation token present). -/
def envE : RedditEnv :=
  ⟨fun _ => .response 200 ⟨[], some (st "tok")⟩, fun _ => true⟩

/-- C7, amended.  The `crawl_site_pages` pagination loop performs exactly
`max_pages` listing-page fetch attempts — a zero-candidate listing page
does not stop it — while the Reddit crawler does stop early: a page with
zero posts ends its pagination (here one single request although
`limit = 300` allows four). -/
theorem crawl_pagination_termination :
    (∀ (env : SiteEnv) (site : Str) (max_pages : Nat),
      (crawl_site_pages env site max_pages).listingFetches =
        List.range' 1 max_pages) ∧
    (crawl_reddit_moldova envE 300).pageFetches = [none] := by
  exact ⟨fun env site mp => listingFetches_crawl env site mp, by decide⟩

/-- A post passing the forum filter whose selftext is shorter than 150
characters: the store will reject it, but `saved_count` is already spent. -/
def postShort : RedditPost :=
  ⟨st "t1", st " și sunt " ++ repStr 91 'a', st "/r/moldova/1"⟩

/-- A post passing the forum filter whose selftext is long enough to be
stored. -/
def postLong : RedditPost :=
  ⟨st "t2", st " și sunt " ++ repStr 191 'a', st "/r/moldova/2"⟩

/-- The C6 failing input: one Reddit page with `postShort` then `postLong`. -/
def envC6 : RedditEnv :=
  ⟨fun _ => .response 200 ⟨[postShort, postLong], none⟩, fun _ => true⟩

/-- C6.  In the Reddit crawler `saved_count` is incremented before the save
result is known, so a post that passes the length-50/Romanian filter but is
rejected by the 150-character store policy consumes an id: on `envC6` the
run reports `saved_count = 2` while exactly one article is persisted and
its `metadata.id` is 2 — the persisted ids are neither gap-free nor
starting at 1. -/
theorem crawl_reddit_id_gap :
    50 < postShort.selftext.length ∧ postShort.selftext.length < 150 ∧
    is_romanian (postShort.title ++ st "\n\n" ++ postShort.selftext) = true ∧
    (crawl_reddit_moldova envC6 200).saved_count = 2 ∧
    ((crawl_reddit_moldova envC6 200).fs.files.map fun f => f.2.id) = [2] := by
  exact ⟨by decide, by decide, by decide, by decide, by decide⟩
